import Mathlib

/-
Shallow embedding of the gcp-storage-emulator storage engine
(src/gcp_storage_emulator/storage.py, checksums.py, handlers/objects.py).

Python dicts are modelled as insertion-ordered association lists with
first-match lookup and replace-or-append insertion; Python scalar values
(None, str, int) are modelled by `PyVal` (dict-valued fields such as the
custom `metadata` map are carried opaquely as a `PyVal` chosen by the
caller and are never inspected by the modelled code paths).  Byte strings
are `List Nat`.  The external hash libraries (google_crc32c, hashlib.md5,
hashlib.sha256 in `safe_id`) are modelled as abstract function parameters,
since they are library code, not code of this repository.  Wall-clock time
(`datetime.now()`) is passed explicitly as a string parameter.

A mutating storage operation returns `Storage × Except Err α`: the first
component is the post-state (also on the error path, mirroring Python
exceptions propagating past already-performed mutations).
-/

namespace GcsEmu

/-- Python scalar values: None, str, int. -/
inductive PyVal where
  | vnone
  | vstr (s : String)
  | vint (n : Int)
deriving DecidableEq, Repr

/-- A GCS-like resource dict (object resource, bucket resource, session record). -/
abbrev Resource := List (String × PyVal)

/-- Byte strings as lists of byte values. -/
abbrev Bytes := List Nat

/-- The two exception kinds raised by the engine (exceptions.Conflict / NotFound). -/
inductive Err where
  | notFound
  | conflict
deriving DecidableEq, Repr

deriving instance DecidableEq for Except

/-- Dict lookup (first match), modelling `d[k]` / `d.get(k)` key presence. -/
def dlookup {κ α : Type} [DecidableEq κ] : List (κ × α) → κ → Option α
  | [], _ => Option.none
  | (k', v) :: rest, k => if k' = k then some v else dlookup rest k

/-- Dict insertion `d[k] = v`: replace in place if the key is present, else append. -/
def dinsert {κ α : Type} [DecidableEq κ] : List (κ × α) → κ → α → List (κ × α)
  | [], k, v => [(k, v)]
  | (k', v') :: rest, k, v =>
    if k' = k then (k, v) :: rest else (k', v') :: dinsert rest k v

/-- Dict deletion `del d[k]` (idempotent at this level). -/
def dremove {κ α : Type} [DecidableEq κ] (d : List (κ × α)) (k : κ) : List (κ × α) :=
  d.filter (fun kv => kv.1 ≠ k)

/-- Python `d.get(k)`: returns None both when the key is absent and when it maps to None. -/
def pyGet (d : Resource) (k : String) : PyVal :=
  match dlookup d k with
  | some v => v
  | Option.none => PyVal.vnone

/-- Python truthiness of a scalar value. -/
def pyTruthy : PyVal → Bool
  | PyVal.vnone => false
  | PyVal.vstr s => s ≠ ""
  | PyVal.vint n => n ≠ 0

/-- Extract the string of a str value (used where Python code uses a dict value as a string). -/
def asStr : PyVal → String
  | PyVal.vstr s => s
  | _ => ""

/-- Lexicographic order on char lists by code point (Python string comparison). -/
def charListLt : List Char → List Char → Bool
  | [], [] => false
  | [], _ :: _ => true
  | _ :: _, [] => false
  | a :: as, b :: bs => if a < b then true else if b < a then false else charListLt as bs

/-- Python `a < b` for strings. -/
def strLtB (a b : String) : Bool :=
  charListLt a.data b.data

/-- Python `a > b` on scalars; `none` when the comparison would raise TypeError. -/
def pyGTopt : PyVal → PyVal → Option Bool
  | PyVal.vstr a, PyVal.vstr b => some (strLtB b a)
  | PyVal.vint a, PyVal.vint b => some (decide (b < a))
  | _, _ => Option.none

/-- Substring test on char lists, modelling Python `needle in hay`. -/
def listContainsSub (needle : List Char) : List Char → Bool
  | [] => needle.isEmpty
  | c :: cs => needle.isPrefixOf (c :: cs) || listContainsSub needle cs

/-- Python `needle in hay` for strings. -/
def strContainsSub (hay needle : String) : Bool :=
  listContainsSub needle.data hay.data

/-- Chars before the first occurrence of `needle`, modelling `s.split(needle, 1)[0]`. -/
def listBeforeFirst (needle : List Char) : List Char → List Char
  | [] => []
  | c :: cs =>
    if needle.isPrefixOf (c :: cs) then [] else c :: listBeforeFirst needle cs

/-- Python `s.split(needle, 1)[0]` for strings. -/
def strBeforeFirst (s needle : String) : String :=
  String.mk (listBeforeFirst needle.data s.data)

/-- Python `s.startswith(p)` (code-point prefix). -/
def strStartsWith (s p : String) : Bool :=
  p.data.isPrefixOf s.data

/-- Python `s[n:]` (slicing by code points). -/
def strDropN (s : String) (n : Nat) : String :=
  String.mk (s.data.drop n)

/-- Python `s[:n]` (slicing by code points). -/
def strTakeN (s : String) (n : Nat) : String :=
  String.mk (s.data.take n)

/-- Decimal digit value of a char, if it is one. -/
def decDigit? (c : Char) : Option Nat :=
  if '0' ≤ c ∧ c ≤ '9' then some (c.toNat - '0'.toNat) else Option.none

/-- Value of a nonempty all-digit char list. -/
def digitsVal : List Char → Nat → Option Nat
  | [], acc => some acc
  | c :: cs, acc =>
    match decDigit? c with
    | some d => digitsVal cs (acc * 10 + d)
    | Option.none => Option.none

/-- Python `int(s)` on plain decimal numerals (optionally negative); `none`
models a ValueError. -/
def pyIntOfStr (s : String) : Option Int :=
  match s.data with
  | [] => Option.none
  | '-' :: cs =>
    if cs.isEmpty then Option.none
    else (digitsVal cs 0).map (fun n => -(n : Int))
  | cs => (digitsVal cs 0).map (fun n => (n : Int))

/-- Python `f"{n:05}"`: decimal, zero-padded to width 5. -/
def pad5 (n : Nat) : String :=
  let s := toString n
  String.mk (List.replicate (5 - s.length) '0') ++ s

/-- Reserved container for resumable-upload transient buffers. -/
def RESUMABLE_DIR : String := "_resumable"

/-- Reserved container for multipart-upload transient parts. -/
def MULTIPART_DIR : String := "_multipart"

/-- The persisted `.meta` snapshot: the four top-level catalog collections. -/
structure Meta where
  buckets : List (String × Resource)
  objects : List (String × List (String × Resource))
  resumable : List (String × Resource)
  multipart : List (String × Resource)
deriving DecidableEq, Repr

/-- The storage engine state: in-memory catalog, content store (keyed by
container and path), and the on-disk snapshot. -/
structure Storage where
  buckets : List (String × Resource)
  objects : List (String × List (String × Resource))
  resumable : List (String × Resource)
  multipart : List (String × Resource)
  files : List ((String × String) × Bytes)
  metaFile : Option Meta
deriving DecidableEq, Repr

/-- `_write_config_to_file`: rewrite the full snapshot. -/
def writeConfig (s : Storage) : Storage :=
  { s with metaFile := some ⟨s.buckets, s.objects, s.resumable, s.multipart⟩ }

/-- Content-store write at `container/path`. -/
def fsWrite (s : Storage) (container path : String) (b : Bytes) : Storage :=
  { s with files := dinsert s.files (container, path) b }

/-- Content-store read at `container/path`. -/
def fsRead (s : Storage) (container path : String) : Option Bytes :=
  dlookup s.files (container, path)

/-- `_delete_file`: idempotent content-store delete (absence only logged). -/
def fsDelete (s : Storage) (container path : String) : Storage :=
  { s with files := dremove s.files (container, path) }

/-- `_delete_dir`: remove a container's whole subtree. -/
def fsDeleteTree (s : Storage) (container : String) : Storage :=
  { s with files := s.files.filter (fun kv => kv.1.1 ≠ container) }

/-- `checksums(content, file_obj)` from checksums.py, parameterised by the
base64-encoded CRC-32C and MD5 digest functions (external libraries). -/
def checksums (crcF md5F : Bytes → String) (content : Bytes) (fo : Resource) :
    Except Err Resource :=
  let crc32c_hash := crcF content
  let obj_crc32c := pyGet fo "crc32c"
  let md5_hash := md5F content
  let obj_md5 := pyGet fo "md5Hash"
  let step1 : Except Err Resource :=
    if ¬ pyTruthy obj_crc32c then
      Except.ok (dinsert fo "crc32c" (PyVal.vstr crc32c_hash))
    else if obj_crc32c ≠ PyVal.vstr crc32c_hash then
      Except.error Err.conflict
    else
      Except.ok fo
  match step1 with
  | Except.error e => Except.error e
  | Except.ok fo1 =>
    let step2 : Except Err Resource :=
      if ¬ pyTruthy obj_md5 then
        Except.ok (dinsert fo1 "md5Hash" (PyVal.vstr md5_hash))
      else if obj_md5 ≠ PyVal.vstr md5_hash then
        Except.error Err.conflict
      else
        Except.ok fo1
    match step2 with
    | Except.error e => Except.error e
    | Except.ok fo2 =>
      Except.ok
        (if ¬ pyTruthy (pyGet fo2 "etag") then
          dinsert fo2 "etag" (PyVal.vstr md5_hash)
        else fo2)

/-- `Storage.get_file` (show_error only controls logging). -/
def get_file (s : Storage) (bucket_name file_name : String) (_show_error : Bool) :
    Except Err Bytes :=
  match fsRead s bucket_name file_name with
  | some b => Except.ok b
  | Option.none => Except.error Err.notFound

/-- `Storage.get_file_obj`. -/
def get_file_obj (s : Storage) (bucket_name file_name : String) : Except Err Resource :=
  match dlookup s.objects bucket_name with
  | Option.none => Except.error Err.notFound
  | some bucket_objects =>
    match dlookup bucket_objects file_name with
    | Option.none => Except.error Err.notFound
    | some o => Except.ok o

/-- `Storage.create_bucket`. -/
def create_bucket (s : Storage) (bucket_name : String) (bucket_obj : Resource) :
    Storage × Resource :=
  (writeConfig { s with buckets := dinsert s.buckets bucket_name bucket_obj }, bucket_obj)

/-- `Storage.delete_resumable_file_obj`: `del self.resumable[file_id]`. -/
def delete_resumable_file_obj (s : Storage) (file_id : String) :
    Storage × Except Err Unit :=
  match dlookup s.resumable file_id with
  | Option.none => (s, Except.error Err.notFound)
  | some _ => ({ s with resumable := dremove s.resumable file_id }, Except.ok ())

/-- `Storage.create_file`, parameterised by the `safe_id` hash (sha256 hexdigest,
an external library). -/
def create_file (safeId : String → String) (s : Storage)
    (bucket_name file_name : String) (content : Bytes) (file_obj : Resource)
    (file_id : Option String) : Storage × Except Err Unit :=
  if (dlookup s.buckets bucket_name).isNone then (s, Except.error Err.notFound)
  else
    let s := fsWrite s bucket_name file_name content
    let bucket_objects := (dlookup s.objects bucket_name).getD []
    let bucket_objects := dinsert bucket_objects file_name file_obj
    let s := { s with objects := dinsert s.objects bucket_name bucket_objects }
    match file_id with
    | Option.none => (writeConfig s, Except.ok ())
    | some fid =>
      match delete_resumable_file_obj s fid with
      | (s, Except.error e) => (s, Except.error e)
      | (s, Except.ok _) =>
        let s := fsDelete s RESUMABLE_DIR (safeId fid)
        (writeConfig s, Except.ok ())

/-- `Storage.get_file_list(bucket_name, prefix, delimiter)`; `pfx`/`delim` are
the prefix and delimiter arguments (None or a string). -/
def get_file_list (s : Storage) (bucket_name : String) (pfx delim : Option String) :
    Except Err (List Resource × List String) :=
  if (dlookup s.buckets bucket_name).isNone then Except.error Err.notFound
  else
    let bucket_objects := (dlookup s.objects bucket_name).getD []
    let pfxTruthy := match pfx with | Option.none => false | some p => p ≠ ""
    let delimTruthy := match delim with | Option.none => false | some d => d ≠ ""
    let prefix_len := if pfxTruthy then (pfx.getD "").length else 0
    let objs :=
      if pfxTruthy then
        (bucket_objects.filter (fun kv =>
          strStartsWith kv.1 (pfx.getD "") &&
            (!delimTruthy ||
              !(strContainsSub (strDropN kv.1 prefix_len) (delim.getD ""))))).map (·.2)
      else
        bucket_objects.map (·.2)
    let pfxs :=
      if delimTruthy then
        (bucket_objects.map (·.1)).filterMap (fun file_name =>
          if strStartsWith file_name (pfx.getD "") &&
              strContainsSub (strDropN file_name prefix_len) (delim.getD "") then
            some (strTakeN file_name prefix_len ++
              strBeforeFirst (strDropN file_name prefix_len) (delim.getD "") ++
              delim.getD "")
          else Option.none)
      else []
    Except.ok (objs, pfxs)

/-- `Storage.create_xml_multipart_upload` (wall-clock time passed as `now`;
`content_type` and the custom `metadata` map carried as opaque values). -/
def create_xml_multipart_upload (s : Storage) (now : String)
    (bucket_name file_name : String) (content_type metadata : PyVal) :
    Storage × Except Err String :=
  if (dlookup s.buckets bucket_name).isNone then (s, Except.error Err.notFound)
  else
    let upload_id := bucket_name ++ ":" ++ file_name ++ ":" ++ now
    let session : Resource :=
      [("kind", PyVal.vstr "storage#object"),
       ("bucket_name", PyVal.vstr bucket_name),
       ("id", PyVal.vstr file_name),
       ("metadata", metadata),
       ("contentType", content_type)]
    let s := { s with multipart := dinsert s.multipart upload_id session }
    (writeConfig s, Except.ok upload_id)

/-- `Storage.add_to_multipart_upload`. -/
def add_to_multipart_upload (safeId : String → String) (s : Storage)
    (upload_id : String) (part_number : Nat) (content : Bytes) :
    Storage × Except Err Unit :=
  match dlookup s.multipart upload_id with
  | Option.none => (s, Except.error Err.notFound)
  | some _ =>
    let part_file_id := safeId upload_id ++ "." ++ pad5 part_number
    (fsWrite s MULTIPART_DIR part_file_id content, Except.ok ())

/-- The part-reading loop of `complete_multipart_upload`: read parts at
consecutive part numbers starting at `partNum`, deleting each one read,
stopping at the first missing part or when `fuel` iterations are done. -/
def collectParts (s : Storage) (safe : String) (partNum fuel : Nat) :
    Storage × Bytes :=
  match fuel with
  | 0 => (s, [])
  | fuel' + 1 =>
    let part_file_id := safe ++ "." ++ pad5 partNum
    match fsRead s MULTIPART_DIR part_file_id with
    | Option.none => (s, [])
    | some part_content =>
      let s := fsDelete s MULTIPART_DIR part_file_id
      let (s, rest) := collectParts s safe (partNum + 1) fuel'
      (s, part_content ++ rest)

/-- `Storage.complete_multipart_upload` (part numbers 1..10000). -/
def complete_multipart_upload (safeId : String → String)
    (crcF md5F : Bytes → String) (now : String) (s : Storage)
    (upload_id : String) : Storage × Except Err Unit :=
  match dlookup s.multipart upload_id with
  | Option.none => (s, Except.error Err.notFound)
  | some upload =>
    let safe := safeId upload_id
    let file_name := asStr (pyGet upload "id")
    let bucket_name := asStr (pyGet upload "bucket_name")
    let (s, content) := collectParts s safe 1 10000
    let s := fsWrite s bucket_name file_name content
    let merged :=
      dinsert (dinsert upload "size" (PyVal.vint content.length)) "updated"
        (PyVal.vstr now)
    match checksums crcF md5F content merged with
    | Except.error e => (s, Except.error e)
    | Except.ok file_obj =>
      let bucket_objects := (dlookup s.objects bucket_name).getD []
      let bucket_objects := dinsert bucket_objects file_name file_obj
      let s := { s with objects := dinsert s.objects bucket_name bucket_objects }
      (writeConfig s, Except.ok ())

/-- `Storage.add_to_resumable_upload`: never raises; returns the first
`total_size` bytes when the accumulated buffer reaches the declared total. -/
def add_to_resumable_upload (safeId : String → String) (s : Storage)
    (file_id : String) (content : Bytes) (total_size : Nat) :
    Storage × Option Bytes :=
  let safe := safeId file_id
  let file_content := (fsRead s RESUMABLE_DIR safe).getD []
  let file_content := file_content ++ content
  let s := fsWrite s RESUMABLE_DIR safe file_content
  if file_content.length ≥ total_size then (s, some (file_content.take total_size))
  else (s, Option.none)

/-- `Storage.delete_bucket`. -/
def delete_bucket (s : Storage) (bucket_name : String) : Storage × Except Err Unit :=
  match dlookup s.buckets bucket_name with
  | Option.none => (s, Except.error Err.notFound)
  | some _ =>
    let bucket_objects := (dlookup s.objects bucket_name).getD []
    if bucket_objects.length ≠ 0 then (s, Except.error Err.conflict)
    else
      let resumable_ids :=
        (s.resumable.filter
          (fun kv => pyGet kv.2 "bucket" = PyVal.vstr bucket_name)).map (·.1)
      if resumable_ids.length ≠ 0 then (s, Except.error Err.conflict)
      else
        let s := { s with buckets := dremove s.buckets bucket_name }
        let s := fsDeleteTree s bucket_name
        (writeConfig s, Except.ok ())

/-- The writable-field allow list from handlers/objects.py. -/
def _WRITABLE_FIELDS : List String :=
  ["cacheControl", "contentDisposition", "contentEncoding", "contentLanguage",
   "contentType", "crc32c", "customTime", "md5Hash", "metadata", "storageClass"]

/-- One iteration of the `_patch_object` field loop; `none` models a Python
TypeError from an unsupported `>` comparison. -/
def patchField (md : Resource) (obj : Resource) (key : String) : Option Resource :=
  let val := pyGet md key
  if val = PyVal.vnone then some obj
  else if key = "customTime" && pyTruthy (pyGet obj key) then
    match pyGTopt (pyGet obj key) val with
    | Option.none => Option.none
    | some true => some obj
    | some false => some (dinsert obj key val)
  else some (dinsert obj key val)

/-- Fold of `patchField` over a list of field names. -/
def patchFields (md : Resource) (obj : Resource) : List String → Option Resource
  | [] => some obj
  | key :: rest =>
    match patchField md obj key with
    | Option.none => Option.none
    | some obj => patchFields md obj rest

/-- `_patch_object(obj, metadata)` from handlers/objects.py; `none` models an
exception (missing/unparseable `metageneration`, or TypeError from `>`). -/
def _patch_object (obj : Resource) (metadata : Option Resource) : Option Resource :=
  let mdTruthy := match metadata with | Option.none => false | some md => md ≠ []
  if mdTruthy then
    match dlookup obj "metageneration" with
    | Option.none => Option.none
    | some mg =>
      match pyIntOfStr (asStr mg) with
      | Option.none => Option.none
      | some mgn =>
        let obj := dinsert obj "metageneration" (PyVal.vstr (toString (mgn + 1)))
        patchFields (metadata.getD []) obj _WRITABLE_FIELDS
  else some obj

/-- The write path of `_media_upload` after resource construction: reconcile
checksums, then persist via `create_file`; a checksum Conflict aborts before
any state change. -/
def media_upload_write (safeId : String → String) (crcF md5F : Bytes → String)
    (s : Storage) (bucket_name object_id : String) (data : Bytes)
    (obj : Resource) : Storage × Except Err Resource :=
  match checksums crcF md5F data obj with
  | Except.error e => (s, Except.error e)
  | Except.ok obj =>
    match create_file safeId s bucket_name object_id data obj Option.none with
    | (s, Except.error e) => (s, Except.error e)
    | (s, Except.ok _) => (s, Except.ok obj)

/-! ## Dictionary lemmas -/

theorem dlookup_dinsert {κ α : Type} [DecidableEq κ] (d : List (κ × α)) (k k' : κ)
    (v : α) :
    dlookup (dinsert d k v) k' = if k = k' then some v else dlookup d k' := by
  induction d with
  | nil => by_cases h : k = k' <;> simp [dinsert, dlookup, h]
  | cons kv rest ih =>
    obtain ⟨k0, v0⟩ := kv
    by_cases h0 : k0 = k
    · subst h0
      by_cases h' : k0 = k' <;> simp [dinsert, dlookup, h', *]
    · by_cases h' : k0 = k'
      · subst h'
        have hkk' : k ≠ k0 := fun he => h0 he.symm
        simp [dinsert, dlookup, h0, hkk']
      · simp [dinsert, dlookup, h0, h', ih]

theorem dlookup_dremove {κ α : Type} [DecidableEq κ] (d : List (κ × α)) (k k' : κ) :
    dlookup (dremove d k) k' = if k' = k then Option.none else dlookup d k' := by
  induction d with
  | nil => by_cases h : k' = k <;> simp [dremove, dlookup, h]
  | cons kv rest ih =>
    obtain ⟨k0, v0⟩ := kv
    by_cases h0 : k0 = k
    · subst h0
      by_cases h' : k0 = k' <;>
        simp_all [dremove, dlookup]
    · by_cases h' : k0 = k' <;>
        simp_all [dremove, dlookup]

theorem pyGet_dinsert (d : Resource) (k k' : String) (v : PyVal) :
    pyGet (dinsert d k v) k' = if k = k' then v else pyGet d k' := by
  by_cases h : k = k' <;> simp [pyGet, dlookup_dinsert, h]

theorem add_resumable_state (safeId : String → String) (s : Storage)
    (file_id : String) (content : Bytes) (total_size : Nat) :
    (add_to_resumable_upload safeId s file_id content total_size).1 =
      fsWrite s RESUMABLE_DIR (safeId file_id)
        ((fsRead s RESUMABLE_DIR (safeId file_id)).getD [] ++ content) := by
  simp only [add_to_resumable_upload]
  split <;> rfl

theorem add_resumable_ret (safeId : String → String) (s : Storage)
    (file_id : String) (content : Bytes) (total_size : Nat) :
    (add_to_resumable_upload safeId s file_id content total_size).2 =
      if total_size ≤
          ((fsRead s RESUMABLE_DIR (safeId file_id)).getD [] ++ content).length then
        some (((fsRead s RESUMABLE_DIR (safeId file_id)).getD [] ++
          content).take total_size)
      else Option.none := by
  simp only [add_to_resumable_upload]
  split <;> rfl

/-! ## Claim C6 -/

/-- Claim C6: `add_to_resumable_upload(file_id, chunk, total)` appends the
chunk to the session's buffer; with cumulative length strictly below the
declared total it returns `none` and the buffer holds every byte received so
far; with cumulative length at least the total it returns exactly the first
`total` bytes.  Concretely, with declared total 10 a 4-byte chunk is
incomplete with stored bytes 0-3, and a following 6-byte chunk completes
with a 10-byte content. -/
theorem add_resumable_accumulate (safeId : String → String) (s : Storage)
    (file_id : String) (content : Bytes) (total_size : Nat) :
    (fsRead (add_to_resumable_upload safeId s file_id content total_size).1
        RESUMABLE_DIR (safeId file_id) =
      some ((fsRead s RESUMABLE_DIR (safeId file_id)).getD [] ++ content)) ∧
    (((fsRead s RESUMABLE_DIR (safeId file_id)).getD [] ++ content).length <
        total_size →
      (add_to_resumable_upload safeId s file_id content total_size).2 =
        Option.none) ∧
    (total_size ≤
        ((fsRead s RESUMABLE_DIR (safeId file_id)).getD [] ++ content).length →
      (add_to_resumable_upload safeId s file_id content total_size).2 =
          some (((fsRead s RESUMABLE_DIR (safeId file_id)).getD [] ++
            content).take total_size) ∧
        (((fsRead s RESUMABLE_DIR (safeId file_id)).getD [] ++
            content).take total_size).length = total_size) ∧
    ((fsRead s RESUMABLE_DIR (safeId file_id) = Option.none →
      (add_to_resumable_upload safeId s file_id [0, 1, 2, 3] 10).2 =
          Option.none ∧
        fsRead (add_to_resumable_upload safeId s file_id [0, 1, 2, 3] 10).1
            RESUMABLE_DIR (safeId file_id) = some [0, 1, 2, 3] ∧
        (add_to_resumable_upload safeId
            (add_to_resumable_upload safeId s file_id [0, 1, 2, 3] 10).1
            file_id [4, 5, 6, 7, 8, 9] 10).2 =
          some [0, 1, 2, 3, 4, 5, 6, 7, 8, 9])) := by
  refine ⟨?_, ?_, ?_, ?_⟩
  · rw [add_resumable_state]
    simp [fsWrite, fsRead, dlookup_dinsert]
  · intro h
    rw [add_resumable_ret, if_neg (Nat.not_le.mpr h)]
  · intro h
    rw [add_resumable_ret, if_pos h]
    refine ⟨rfl, ?_⟩
    simp only [List.length_take]
    omega
  · intro h
    have h' : dlookup s.files (RESUMABLE_DIR, safeId file_id) = Option.none := h
    refine ⟨?_, ?_, ?_⟩
    · rw [add_resumable_ret]
      simp [fsRead, h']
    · rw [add_resumable_state]
      simp [fsWrite, fsRead, dlookup_dinsert, h']
    · rw [add_resumable_ret, add_resumable_state]
      simp [fsWrite, fsRead, dlookup_dinsert, h']

/-- Concrete instantiation of the C6 theorem. -/
theorem add_resumable_accumulate_witness :
    (fsRead (add_to_resumable_upload (fun x => x)
        ⟨[], [], [], [], [], Option.none⟩ "fid" [1, 2] 5).1
      RESUMABLE_DIR "fid" = some [1, 2]) ∧
    (add_to_resumable_upload (fun x => x) ⟨[], [], [], [], [], Option.none⟩
        "fid" [1, 2] 5).2 = Option.none ∧
    (add_to_resumable_upload (fun x => x) ⟨[], [], [], [], [], Option.none⟩
        "fid" [1, 2] 2).2 = some [1, 2] ∧
    ([1, 2] : Bytes).take 2 = [1, 2] := by
  have h := add_resumable_accumulate (fun x => x)
    ⟨[], [], [], [], [], Option.none⟩ "fid" [1, 2] 5
  have h2 := add_resumable_accumulate (fun x => x)
    ⟨[], [], [], [], [], Option.none⟩ "fid" [1, 2] 2
  refine ⟨?_, ?_, ?_, by decide⟩
  · have := h.1
    simpa using this
  · exact h.2.1 (by decide)
  · have := (h2.2.2.1 (by decide)).1
    simpa using this

/-! ## Claim C10 -/

/-- Claim C10: `add_to_resumable_upload` never fails with NotFound when no
transient buffer exists for the session: an absent buffer is treated as
empty bytes, the resulting buffer equals exactly the first chunk, and the
returned value follows the total-size comparison on that chunk alone. -/
theorem add_resumable_fresh (safeId : String → String) (s : Storage)
    (file_id : String) (content : Bytes) (total_size : Nat)
    (h : fsRead s RESUMABLE_DIR (safeId file_id) = Option.none) :
    (fsRead (add_to_resumable_upload safeId s file_id content total_size).1
        RESUMABLE_DIR (safeId file_id) = some content) ∧
    (content.length < total_size →
      (add_to_resumable_upload safeId s file_id content total_size).2 =
        Option.none) ∧
    (total_size ≤ content.length →
      (add_to_resumable_upload safeId s file_id content total_size).2 =
        some (content.take total_size)) := by
  have h' : dlookup s.files (RESUMABLE_DIR, safeId file_id) = Option.none := h
  refine ⟨?_, ?_, ?_⟩
  · rw [add_resumable_state]
    simp [fsWrite, fsRead, dlookup_dinsert, h']
  · intro hlt
    rw [add_resumable_ret]
    simp [fsRead, h', Nat.not_le.mpr hlt]
  · intro hge
    rw [add_resumable_ret]
    simp [fsRead, h', hge]

/-- Concrete instantiation of the C10 theorem. -/
theorem add_resumable_fresh_witness :
    (fsRead (add_to_resumable_upload (fun x => x)
        ⟨[], [], [], [], [], Option.none⟩ "fresh" [7, 8, 9] 10).1
      RESUMABLE_DIR "fresh" = some [7, 8, 9]) ∧
    (add_to_resumable_upload (fun x => x) ⟨[], [], [], [], [], Option.none⟩
        "fresh" [7, 8, 9] 10).2 = Option.none := by
  have h := add_resumable_fresh (fun x => x) ⟨[], [], [], [], [], Option.none⟩
    "fresh" [7, 8, 9] 10 (by decide)
  exact ⟨h.1, h.2.1 (by decide)⟩

/-! ## Claim C9 -/

/-- Claim C9: after `create_file(bucket, key, content, resource)` succeeds on
an existing bucket with a resource whose `size` field equals the byte length
of the content, `get_file` returns exactly the original content and
`get_file_obj` returns the installed resource, whose `size` field therefore
equals the byte length of that content. -/
theorem create_get_roundtrip (safeId : String → String) (s : Storage)
    (bucket_name file_name : String) (content : Bytes) (file_obj : Resource)
    (hb : ∃ bobj, dlookup s.buckets bucket_name = some bobj)
    (hsize : pyGet file_obj "size" = PyVal.vstr (toString content.length)) :
    (create_file safeId s bucket_name file_name content file_obj Option.none).2 =
        Except.ok () ∧
    get_file (create_file safeId s bucket_name file_name content file_obj
        Option.none).1 bucket_name file_name true = Except.ok content ∧
    get_file_obj (create_file safeId s bucket_name file_name content file_obj
        Option.none).1 bucket_name file_name = Except.ok file_obj ∧
    pyGet file_obj "size" = PyVal.vstr (toString content.length) := by
  obtain ⟨bobj, hbeq⟩ := hb
  refine ⟨?_, ?_, ?_, hsize⟩ <;>
    simp [create_file, hbeq, get_file, get_file_obj, fsWrite, fsRead,
      writeConfig, dlookup_dinsert]

/-- Concrete instantiation of the C9 theorem. -/
theorem create_get_roundtrip_witness :
    get_file (create_file (fun x => x)
        ⟨[("b", [])], [], [], [], [], Option.none⟩ "b" "k" [1, 2, 3]
        [("size", PyVal.vstr "3")] Option.none).1 "b" "k" true =
      Except.ok [1, 2, 3] ∧
    get_file_obj (create_file (fun x => x)
        ⟨[("b", [])], [], [], [], [], Option.none⟩ "b" "k" [1, 2, 3]
        [("size", PyVal.vstr "3")] Option.none).1 "b" "k" =
      Except.ok [("size", PyVal.vstr "3")] := by
  have h := create_get_roundtrip (fun x => x)
    ⟨[("b", [])], [], [], [], [], Option.none⟩ "b" "k" [1, 2, 3]
    [("size", PyVal.vstr "3")] ⟨[], by decide⟩ (by decide)
  exact ⟨h.2.1, h.2.2.1⟩

/-! ## Claim C7 -/

/-- Claim C7: `delete_bucket(name)` fails with NotFound when the bucket does
not exist; fails with Conflict when the bucket contains at least one object;
fails with Conflict when some resumable session's target bucket equals this
bucket even if the bucket holds no objects; and otherwise removes the bucket
entry, removes its content subtree, and persists the snapshot.  On failure
the whole state is unchanged. -/
theorem delete_bucket_spec :
    (∀ (s : Storage) (name : String), dlookup s.buckets name = Option.none →
      delete_bucket s name = (s, Except.error Err.notFound)) ∧
    (∀ (s : Storage) (name : String),
      (∃ bobj, dlookup s.buckets name = some bobj) →
      (dlookup s.objects name).getD [] ≠ [] →
      delete_bucket s name = (s, Except.error Err.conflict)) ∧
    (∀ (s : Storage) (name : String) (kv : String × Resource),
      (∃ bobj, dlookup s.buckets name = some bobj) →
      (dlookup s.objects name).getD [] = [] →
      kv ∈ s.resumable → pyGet kv.2 "bucket" = PyVal.vstr name →
      delete_bucket s name = (s, Except.error Err.conflict)) ∧
    (∀ (s : Storage) (name : String),
      (∃ bobj, dlookup s.buckets name = some bobj) →
      (dlookup s.objects name).getD [] = [] →
      (∀ kv ∈ s.resumable, pyGet kv.2 "bucket" ≠ PyVal.vstr name) →
      (delete_bucket s name).2 = Except.ok () ∧
      (delete_bucket s name).1.buckets = dremove s.buckets name ∧
      (delete_bucket s name).1.files =
        s.files.filter (fun kv => kv.1.1 ≠ name) ∧
      (delete_bucket s name).1.metaFile =
        some ⟨dremove s.buckets name, s.objects, s.resumable, s.multipart⟩) := by
  refine ⟨?_, ?_, ?_, ?_⟩
  · intro s name h
    simp [delete_bucket, h]
  · intro s name ⟨bobj, hbeq⟩ hobj
    simp [delete_bucket, hbeq, hobj]
  · intro s name kv ⟨bobj, hbeq⟩ hobj hmem hbk
    have hfil : kv ∈ s.resumable.filter
        (fun kv => pyGet kv.2 "bucket" = PyVal.vstr name) :=
      List.mem_filter.mpr ⟨hmem, by simp [hbk]⟩
    have hne : s.resumable.filter
        (fun kv => pyGet kv.2 "bucket" = PyVal.vstr name) ≠ [] :=
      List.ne_nil_of_mem hfil
    simp [delete_bucket, hbeq, hobj, hne]
  · intro s name ⟨bobj, hbeq⟩ hobj hres
    have hnil : s.resumable.filter
        (fun kv => pyGet kv.2 "bucket" = PyVal.vstr name) = [] := by
      rw [List.filter_eq_nil_iff]
      intro kv hmem
      simp [hres kv hmem]
    refine ⟨?_, ?_, ?_, ?_⟩ <;>
      simp [delete_bucket, hbeq, hobj, hnil, fsDeleteTree, writeConfig, dremove]

/-- Concrete instantiations of the four branches of the C7 theorem. -/
theorem delete_bucket_spec_witness :
    delete_bucket ⟨[], [], [], [], [], Option.none⟩ "b" =
      (⟨[], [], [], [], [], Option.none⟩, Except.error Err.notFound) ∧
    delete_bucket ⟨[("b", [])], [("b", [("k", [])])], [], [], [], Option.none⟩
        "b" =
      (⟨[("b", [])], [("b", [("k", [])])], [], [], [], Option.none⟩,
        Except.error Err.conflict) ∧
    delete_bucket
        ⟨[("b", [])], [], [("rid", [("bucket", PyVal.vstr "b")])], [], [],
          Option.none⟩ "b" =
      (⟨[("b", [])], [], [("rid", [("bucket", PyVal.vstr "b")])], [], [],
          Option.none⟩, Except.error Err.conflict) ∧
    (delete_bucket ⟨[("b", [])], [], [], [], [(("b", "k"), [1])],
        Option.none⟩ "b").2 = Except.ok () ∧
    (delete_bucket ⟨[("b", [])], [], [], [], [(("b", "k"), [1])],
        Option.none⟩ "b").1.buckets = [] ∧
    (delete_bucket ⟨[("b", [])], [], [], [], [(("b", "k"), [1])],
        Option.none⟩ "b").1.files = [] := by
  obtain ⟨h1, h2, h3, h4⟩ := delete_bucket_spec
  refine ⟨h1 ⟨[], [], [], [], [], Option.none⟩ "b" (by decide), ?_, ?_, ?_⟩
  · exact h2 ⟨[("b", [])], [("b", [("k", [])])], [], [], [], Option.none⟩ "b"
      ⟨[], by decide⟩ (by decide)
  · exact h3
      ⟨[("b", [])], [], [("rid", [("bucket", PyVal.vstr "b")])], [], [],
        Option.none⟩ "b" ("rid", [("bucket", PyVal.vstr "b")])
      ⟨[], by decide⟩ (by decide) (by decide) (by decide)
  · have h := h4 ⟨[("b", [])], [], [], [], [(("b", "k"), [1])], Option.none⟩
      "b" ⟨[], by decide⟩ (by decide) (by decide)
    refine ⟨h.1, ?_, ?_⟩
    · rw [h.2.1]; decide
    · rw [h.2.2.1]; decide

/-! ## Claim C1 -/

theorem checksums_ok_fields (crcF md5F : Bytes → String) (content : Bytes)
    (fo fo' : Resource) (hok : checksums crcF md5F content fo = Except.ok fo') :
    (¬ pyTruthy (pyGet fo "crc32c") →
      pyGet fo' "crc32c" = PyVal.vstr (crcF content)) ∧
    (pyTruthy (pyGet fo "crc32c") →
      pyGet fo' "crc32c" = pyGet fo "crc32c") ∧
    (¬ pyTruthy (pyGet fo "md5Hash") →
      pyGet fo' "md5Hash" = PyVal.vstr (md5F content)) ∧
    (pyTruthy (pyGet fo "md5Hash") →
      pyGet fo' "md5Hash" = pyGet fo "md5Hash") ∧
    (¬ pyTruthy (pyGet fo "etag") →
      pyGet fo' "etag" = PyVal.vstr (md5F content)) := by
  simp only [checksums] at hok
  by_cases h1 : pyTruthy (pyGet fo "crc32c") <;>
    by_cases h2 : pyTruthy (pyGet fo "md5Hash") <;>
    by_cases h3 : pyTruthy (pyGet fo "etag") <;>
    by_cases e1 : pyGet fo "crc32c" = PyVal.vstr (crcF content) <;>
    by_cases e2 : pyGet fo "md5Hash" = PyVal.vstr (md5F content) <;>
    simp_all [pyGet_dinsert] <;>
    simp_all [← hok, pyGet_dinsert]

theorem checksums_isOk (crcF md5F : Bytes → String) (content : Bytes)
    (fo : Resource)
    (hc : ¬ pyTruthy (pyGet fo "crc32c") ∨
      pyGet fo "crc32c" = PyVal.vstr (crcF content))
    (hm : ¬ pyTruthy (pyGet fo "md5Hash") ∨
      pyGet fo "md5Hash" = PyVal.vstr (md5F content)) :
    ∃ fo', checksums crcF md5F content fo = Except.ok fo' := by
  by_cases h1 : pyTruthy (pyGet fo "crc32c") <;>
    by_cases h2 : pyTruthy (pyGet fo "md5Hash") <;>
    by_cases h3 : pyTruthy (pyGet fo "etag") <;>
    rcases hc with hc | hc <;> rcases hm with hm | hm <;>
    simp_all [checksums, pyGet_dinsert]

theorem checksums_conflict_crc (crcF md5F : Bytes → String) (content : Bytes)
    (fo : Resource) (h1 : pyTruthy (pyGet fo "crc32c"))
    (h2 : pyGet fo "crc32c" ≠ PyVal.vstr (crcF content)) :
    checksums crcF md5F content fo = Except.error Err.conflict := by
  simp [checksums, h1, h2]

theorem checksums_conflict_md5 (crcF md5F : Bytes → String) (content : Bytes)
    (fo : Resource)
    (hc : ¬ pyTruthy (pyGet fo "crc32c") ∨
      pyGet fo "crc32c" = PyVal.vstr (crcF content))
    (h1 : pyTruthy (pyGet fo "md5Hash"))
    (h2 : pyGet fo "md5Hash" ≠ PyVal.vstr (md5F content)) :
    checksums crcF md5F content fo = Except.error Err.conflict := by
  by_cases ht : pyTruthy (pyGet fo "crc32c") <;> rcases hc with hc | hc <;>
    simp_all [checksums]

/-- Claim C1: `checksums(content, r)` reconciles the computed base64-encoded
CRC-32C and MD5 digests of the content with the resource: a digest the
resource does not carry is set to the computed value; a carried digest
differing from the computed value makes the call fail with Conflict, the
rule holding independently for crc32c and md5Hash, and the media-upload
write path then persists nothing; carried matching digests are kept; and a
resource carrying no etag gets the computed content MD5 digest as its etag. -/
theorem checksums_reconcile (safeId : String → String)
    (crcF md5F : Bytes → String) (content : Bytes) (fo : Resource)
    (s : Storage) (bucket_name object_id : String) :
    (¬ pyTruthy (pyGet fo "crc32c") → ¬ pyTruthy (pyGet fo "md5Hash") →
      ∃ fo', checksums crcF md5F content fo = Except.ok fo' ∧
        pyGet fo' "crc32c" = PyVal.vstr (crcF content) ∧
        pyGet fo' "md5Hash" = PyVal.vstr (md5F content)) ∧
    (pyTruthy (pyGet fo "crc32c") →
      pyGet fo "crc32c" ≠ PyVal.vstr (crcF content) →
      checksums crcF md5F content fo = Except.error Err.conflict ∧
      media_upload_write safeId crcF md5F s bucket_name object_id content fo =
        (s, Except.error Err.conflict)) ∧
    ((¬ pyTruthy (pyGet fo "crc32c") ∨
        pyGet fo "crc32c" = PyVal.vstr (crcF content)) →
      pyTruthy (pyGet fo "md5Hash") →
      pyGet fo "md5Hash" ≠ PyVal.vstr (md5F content) →
      checksums crcF md5F content fo = Except.error Err.conflict ∧
      media_upload_write safeId crcF md5F s bucket_name object_id content fo =
        (s, Except.error Err.conflict)) ∧
    (pyGet fo "crc32c" = PyVal.vstr (crcF content) →
      pyGet fo "md5Hash" = PyVal.vstr (md5F content) →
      pyTruthy (pyGet fo "crc32c") → pyTruthy (pyGet fo "md5Hash") →
      ∃ fo', checksums crcF md5F content fo = Except.ok fo' ∧
        pyGet fo' "crc32c" = pyGet fo "crc32c" ∧
        pyGet fo' "md5Hash" = pyGet fo "md5Hash") ∧
    (∀ fo', checksums crcF md5F content fo = Except.ok fo' →
      ¬ pyTruthy (pyGet fo "etag") →
      pyGet fo' "etag" = PyVal.vstr (md5F content)) := by
  refine ⟨?_, ?_, ?_, ?_, ?_⟩
  · intro h1 h2
    obtain ⟨fo', hok⟩ :=
      checksums_isOk crcF md5F content fo (Or.inl h1) (Or.inl h2)
    have hf := checksums_ok_fields crcF md5F content fo fo' hok
    exact ⟨fo', hok, hf.1 h1, hf.2.2.1 h2⟩
  · intro h1 h2
    have hcs := checksums_conflict_crc crcF md5F content fo h1 h2
    exact ⟨hcs, by simp [media_upload_write, hcs]⟩
  · intro hc h1 h2
    have hcs := checksums_conflict_md5 crcF md5F content fo hc h1 h2
    exact ⟨hcs, by simp [media_upload_write, hcs]⟩
  · intro e1 e2 h1 h2
    obtain ⟨fo', hok⟩ :=
      checksums_isOk crcF md5F content fo (Or.inr e1) (Or.inr e2)
    have hf := checksums_ok_fields crcF md5F content fo fo' hok
    exact ⟨fo', hok, hf.2.1 h1, hf.2.2.2.1 h2⟩
  · intro fo' hok hetag
    exact (checksums_ok_fields crcF md5F content fo fo' hok).2.2.2.2 hetag

/-- Concrete instantiations of the C1 theorem's branches. -/
theorem checksums_reconcile_witness :
    (checksums (fun _ => "C") (fun _ => "M") [1]
        [("crc32c", PyVal.vnone), ("md5Hash", PyVal.vnone)] =
      Except.ok
        [("crc32c", PyVal.vstr "C"), ("md5Hash", PyVal.vstr "M"),
          ("etag", PyVal.vstr "M")]) ∧
    (checksums (fun _ => "C") (fun _ => "M") [1]
        [("crc32c", PyVal.vstr "X")] = Except.error Err.conflict) ∧
    (media_upload_write (fun x => x) (fun _ => "C") (fun _ => "M")
        ⟨[("b", [])], [], [], [], [], Option.none⟩ "b" "k" [1]
        [("crc32c", PyVal.vstr "X")] =
      (⟨[("b", [])], [], [], [], [], Option.none⟩,
        Except.error Err.conflict)) ∧
    (checksums (fun _ => "C") (fun _ => "M") [1]
        [("crc32c", PyVal.vstr "C"), ("md5Hash", PyVal.vstr "Y")] =
      Except.error Err.conflict) := by
  have hA := checksums_reconcile (fun x => x) (fun _ => "C") (fun _ => "M")
    [1] [("crc32c", PyVal.vnone), ("md5Hash", PyVal.vnone)]
    ⟨[("b", [])], [], [], [], [], Option.none⟩ "b" "k"
  have hB := checksums_reconcile (fun x => x) (fun _ => "C") (fun _ => "M")
    [1] [("crc32c", PyVal.vstr "X")]
    ⟨[("b", [])], [], [], [], [], Option.none⟩ "b" "k"
  have hC := checksums_reconcile (fun x => x) (fun _ => "C") (fun _ => "M")
    [1] [("crc32c", PyVal.vstr "C"), ("md5Hash", PyVal.vstr "Y")]
    ⟨[("b", [])], [], [], [], [], Option.none⟩ "b" "k"
  obtain ⟨fo', hok, hc, hm⟩ := hA.1 (by decide) (by decide)
  have hBc := hB.2.1 (by decide) (by decide)
  have hCc := hC.2.2.1 (Or.inr (by decide)) (by decide) (by decide)
  exact ⟨by decide, hBc.1, hBc.2, hCc.1⟩

/-! ## Claim C8 -/

theorem patchField_other (md obj : Resource) (key k : String) (obj1 : Resource)
    (h : patchField md obj key = some obj1) (hne : k ≠ key) :
    dlookup obj1 k = dlookup obj k := by
  have hne' : key ≠ k := fun he => hne he.symm
  simp only [patchField] at h
  by_cases hv : pyGet md key = PyVal.vnone
  · simp [hv] at h
    subst h
    rfl
  · by_cases hg : (key = "customTime" && pyTruthy (pyGet obj key)) = true
    · rcases hgt : pyGTopt (pyGet obj key) (pyGet md key) with _ | b
      · simp [hv, hg, hgt] at h
      · cases b
        · simp [hv, hg, hgt] at h
          subst h
          simp [dlookup_dinsert, hne']
        · simp [hv, hg, hgt] at h
          subst h
          rfl
    · simp [hv, hg] at h
      subst h
      simp [dlookup_dinsert, hne']

theorem patchFields_other (keys : List String) (md obj obj' : Resource)
    (h : patchFields md obj keys = some obj') (k : String) (hk : k ∉ keys) :
    dlookup obj' k = dlookup obj k := by
  induction keys generalizing obj with
  | nil =>
    simp [patchFields] at h
    subst h
    rfl
  | cons key rest ih =>
    simp only [patchFields] at h
    cases hpf : patchField md obj key with
    | none => rw [hpf] at h; cases h
    | some obj1 =>
      rw [hpf] at h
      have hk1 : k ≠ key := fun he => hk (by simp [he])
      have h2 := ih obj1 h (fun hmem => hk (List.mem_cons_of_mem _ hmem))
      rw [h2, patchField_other md obj key k obj1 hpf hk1]

theorem patchFields_assign (keys : List String) (hnd : keys.Nodup)
    (md obj obj' : Resource) (h : patchFields md obj keys = some obj')
    (k : String) (hk : k ∈ keys) (hkct : k ≠ "customTime")
    (hv : pyGet md k ≠ PyVal.vnone) : pyGet obj' k = pyGet md k := by
  induction keys generalizing obj with
  | nil => cases hk
  | cons key rest ih =>
    simp only [patchFields] at h
    cases hpf : patchField md obj key with
    | none => rw [hpf] at h; cases h
    | some obj1 =>
      rw [hpf] at h
      rcases List.mem_cons.mp hk with he | hmem
      · subst he
        have hpf' : patchField md obj k = some (dinsert obj k (pyGet md k)) := by
          simp [patchField, hv, hkct]
        rw [hpf'] at hpf
        injection hpf with hpf
        subst hpf
        have hnr : k ∉ rest := (List.nodup_cons.mp hnd).1
        have hother := patchFields_other rest md _ obj' h k hnr
        simp [pyGet, hother, dlookup_dinsert]
      · exact ih (List.nodup_cons.mp hnd).2 obj1 h hmem

theorem patchFields_ct_skip (keys : List String) (hnd : keys.Nodup)
    (md obj obj' : Resource) (h : patchFields md obj keys = some obj')
    (hct : "customTime" ∈ keys) (htr : pyTruthy (pyGet obj "customTime"))
    (hgt : pyGTopt (pyGet obj "customTime") (pyGet md "customTime") =
      some true) :
    pyGet obj' "customTime" = pyGet obj "customTime" := by
  induction keys generalizing obj with
  | nil => cases hct
  | cons key rest ih =>
    simp only [patchFields] at h
    cases hpf : patchField md obj key with
    | none => rw [hpf] at h; cases h
    | some obj1 =>
      rw [hpf] at h
      by_cases hk : key = "customTime"
      · subst hk
        have hobj1 : obj1 = obj := by
          by_cases hv : pyGet md "customTime" = PyVal.vnone
          · simp [patchField, hv] at hpf
            exact hpf.symm
          · simp [patchField, hv, htr, hgt] at hpf
            exact hpf.symm
        subst hobj1
        have hnr : "customTime" ∉ rest := (List.nodup_cons.mp hnd).1
        have hother := patchFields_other rest md obj1 obj' h _ hnr
        simp [pyGet, hother]
      · have hlk : dlookup obj1 "customTime" = dlookup obj "customTime" :=
          patchField_other md obj key "customTime" obj1 hpf
            (fun he => hk he.symm)
        have hpg : pyGet obj1 "customTime" = pyGet obj "customTime" := by
          simp [pyGet, hlk]
        have hmem : "customTime" ∈ rest := by
          rcases List.mem_cons.mp hct with he | hmem
          · exact absurd he.symm hk
          · exact hmem
        have := ih (List.nodup_cons.mp hnd).2 obj1 h hmem (hpg ▸ htr)
          (hpg ▸ hgt)
        rw [this, hpg]

/-- Claim C8: a successful `_patch_object` with a patch whose `customTime`
is lexicographically older than the stored (truthy) `customTime` leaves the
stored `customTime` unchanged; every other writable field present (non-None)
in the patch is unconditionally overwritten with the patched value; and
fields outside the writable allow-list are never copied from the patch
(`metageneration` aside, every such field keeps its prior binding). -/
theorem patch_object_spec (obj md obj' : Resource)
    (h : _patch_object obj (some md) = some obj') :
    (∀ ct_old ct_new : String,
      pyGet obj "customTime" = PyVal.vstr ct_old →
      pyGet md "customTime" = PyVal.vstr ct_new →
      ct_old ≠ "" → strLtB ct_new ct_old = true →
      pyGet obj' "customTime" = PyVal.vstr ct_old) ∧
    (∀ k, k ∈ _WRITABLE_FIELDS → k ≠ "customTime" →
      pyGet md k ≠ PyVal.vnone → pyGet obj' k = pyGet md k) ∧
    (∀ k, k ∉ _WRITABLE_FIELDS → k ≠ "metageneration" →
      dlookup obj' k = dlookup obj k) := by
  by_cases hmd : md = []
  · subst hmd
    simp [_patch_object] at h
    subst h
    refine ⟨?_, ?_, ?_⟩
    · intro ct_old ct_new _ hnew _ _
      simp [pyGet, dlookup] at hnew
    · intro k _ _ hv
      simp [pyGet, dlookup] at hv
    · intro k _ _
      rfl
  · rcases hmg : dlookup obj "metageneration" with _ | mg
    · have hnone : _patch_object obj (some md) = Option.none := by
        simp [_patch_object, hmd, hmg]
      rw [hnone] at h
      cases h
    · rcases hmi : pyIntOfStr (asStr mg) with _ | mgn
      · have hnone : _patch_object obj (some md) = Option.none := by
          simp [_patch_object, hmd, hmg, hmi]
        rw [hnone] at h
        cases h
      · have hstep : _patch_object obj (some md) =
            patchFields md (dinsert obj "metageneration"
              (PyVal.vstr (toString (mgn + 1)))) _WRITABLE_FIELDS := by
          simp [_patch_object, hmd, hmg, hmi]
        rw [hstep] at h
        refine ⟨?_, ?_, ?_⟩
        · intro ct_old ct_new hold hnew hne hlt
          have hnd : _WRITABLE_FIELDS.Nodup := by decide
          have hmem : "customTime" ∈ _WRITABLE_FIELDS := by decide
          have hpg : pyGet (dinsert obj "metageneration"
              (PyVal.vstr (toString (mgn + 1)))) "customTime" =
              pyGet obj "customTime" := by
            simp [pyGet_dinsert]
          have hskip := patchFields_ct_skip _WRITABLE_FIELDS hnd md _ obj' h
            hmem (by rw [hpg, hold]; simp [pyTruthy, hne])
            (by rw [hpg, hold, hnew]; simp [pyGTopt, hlt])
          rw [hskip, hpg, hold]
        · intro k hk hkct hv
          have hnd : _WRITABLE_FIELDS.Nodup := by decide
          exact patchFields_assign _WRITABLE_FIELDS hnd md _ obj' h k hk
            hkct hv
        · intro k hk hmg'
          have hother := patchFields_other _WRITABLE_FIELDS md _ obj' h k hk
          rw [hother, dlookup_dinsert, if_neg (fun he => hmg' he.symm)]

/-- Concrete instantiation of the C8 theorem: stored customTime 2021-05,
patched customTime 2020-01 (older, ignored), contentType patched, field
outside the allow-list not copied. -/
theorem patch_object_spec_witness :
    pyGet [("metageneration", PyVal.vstr "2"),
        ("customTime", PyVal.vstr "2021-05"),
        ("contentType", PyVal.vstr "u")] "customTime" =
      PyVal.vstr "2021-05" ∧
    pyGet [("metageneration", PyVal.vstr "2"),
        ("customTime", PyVal.vstr "2021-05"),
        ("contentType", PyVal.vstr "u")] "contentType" =
      pyGet [("customTime", PyVal.vstr "2020-01"),
        ("contentType", PyVal.vstr "u"), ("foo", PyVal.vstr "bar")]
        "contentType" ∧
    dlookup [("metageneration", PyVal.vstr "2"),
        ("customTime", PyVal.vstr "2021-05"),
        ("contentType", PyVal.vstr "u")] "foo" =
      dlookup [("metageneration", PyVal.vstr "1"),
        ("customTime", PyVal.vstr "2021-05"),
        ("contentType", PyVal.vstr "t")] "foo" := by
  have h := patch_object_spec
    [("metageneration", PyVal.vstr "1"),
      ("customTime", PyVal.vstr "2021-05"), ("contentType", PyVal.vstr "t")]
    [("customTime", PyVal.vstr "2020-01"), ("contentType", PyVal.vstr "u"),
      ("foo", PyVal.vstr "bar")]
    [("metageneration", PyVal.vstr "2"),
      ("customTime", PyVal.vstr "2021-05"), ("contentType", PyVal.vstr "u")]
    (by decide)
  exact ⟨h.1 "2021-05" "2020-01" (by decide) (by decide) (by decide)
      (by decide),
    h.2.1 "contentType" (by decide) (by decide) (by decide),
    h.2.2 "foo" (by decide) (by decide)⟩

/-! ## Claims C4 and C5 -/

/-- Objects surviving the delimiter exclusion, phrased after the words of
claim C4: keys starting with the prefix whose remainder after stripping the
prefix does not contain the delimiter. -/
def claimVisibleObjs (bucket_objects : List (String × Resource)) (p : String)
    (delim : Option String) : List Resource :=
  (bucket_objects.filter (fun kv =>
    strStartsWith kv.1 p &&
      (match delim with
       | Option.none => true
       | some dd =>
         if dd = "" then true
         else !(strContainsSub (strDropN kv.1 p.length) dd)))).map (·.2)

/-- Common-prefix entries phrased after the words of claim C5: for each
object key matching the prefix whose remainder contains the delimiter, the
prefix followed by the remainder up to and including the first delimiter
occurrence — one entry per matching key. -/
def claimCommonEntries (names : List String) (p dd : String) : List String :=
  (names.filter (fun nm =>
    strStartsWith nm p && strContainsSub (strDropN nm p.length) dd)).map
    (fun nm => p ++ strBeforeFirst (strDropN nm p.length) dd ++ dd)

theorem filterMap_ite {α β : Type} (f : α → β) (p : α → Bool) (l : List α) :
    l.filterMap (fun a => if p a then some (f a) else Option.none) =
      (l.filter p).map f := by
  induction l with
  | nil => rfl
  | cons a l ih => by_cases h : p a <;> simp [h, ih]

theorem filterMap_congr2 {α β : Type} (l : List α) (f g : α → Option β)
    (h : ∀ a ∈ l, f a = g a) : l.filterMap f = l.filterMap g := by
  induction l with
  | nil => rfl
  | cons a l ih =>
    simp only [List.filterMap_cons, h a (by simp)]
    rw [ih (fun a ha => h a (by simp [ha]))]

theorem strTakeN_of_startsWith (nm p : String)
    (h : strStartsWith nm p = true) : strTakeN nm p.length = p := by
  cases nm with | mk nd =>
  cases p with | mk pd =>
  simp only [strStartsWith] at h
  rw [List.isPrefixOf_iff_prefix] at h
  simp only [strTakeN, String.length]
  rw [← List.prefix_iff_eq_take.mp h]

/-- Claim C4 counterexample: with `prefix=None` and delimiter `/`, the single
object, whose key `a/b` (stripped of the empty prefix) contains the
delimiter, is still returned by `get_file_list`, so the claimed exclusion
does not apply for a falsy prefix. -/
theorem get_file_list_falsy_pfx_cx :
    (get_file_list
        ⟨[("b", [])], [("b", [("a/b", [("n", PyVal.vstr "1")])])], [], [],
          [], Option.none⟩ "b" Option.none (some "/") =
      Except.ok ([[("n", PyVal.vstr "1")]], ["a/"])) ∧
    strContainsSub (strDropN "a/b" 0) "/" = true ∧
    ([[("n", PyVal.vstr "1")]] : List Resource) ≠ [] := by
  refine ⟨by decide, by decide, by decide⟩

/-- Claim C4 as amended: with a non-empty prefix, `get_file_list` excludes
exactly the objects whose key, after stripping the prefix, contains the
delimiter; `prefix=None` and `prefix=""` behave identically; but for a falsy
prefix (None or empty) the object list contains every object of the bucket —
no delimiter-based exclusion is applied there. -/
theorem get_file_list_delimiter_amended :
    (∀ (s : Storage) (bucket_name p : String) (d : Option String)
        (objs : List Resource) (pfl : List String),
      p ≠ "" →
      get_file_list s bucket_name (some p) d = Except.ok (objs, pfl) →
      objs =
        claimVisibleObjs ((dlookup s.objects bucket_name).getD []) p d) ∧
    (∀ (s : Storage) (bucket_name : String) (d : Option String),
      get_file_list s bucket_name Option.none d =
        get_file_list s bucket_name (some "") d) ∧
    (∀ (s : Storage) (bucket_name : String) (d : Option String)
        (objs : List Resource) (pfl : List String),
      get_file_list s bucket_name Option.none d = Except.ok (objs, pfl) →
      objs = ((dlookup s.objects bucket_name).getD []).map (·.2)) := by
  refine ⟨?_, ?_, ?_⟩
  · intro s bucket_name p d objs pfl hp h
    rcases hbv : dlookup s.buckets bucket_name with _ | bobj
    · rw [get_file_list.eq_def, hbv] at h
      simp at h
    · rw [get_file_list.eq_def, hbv] at h
      simp [hp] at h
      rw [← h.1]
      unfold claimVisibleObjs
      congr 1
      apply List.filter_congr
      intro kv _
      cases d with
      | none => simp
      | some dd =>
        by_cases hdd : dd = ""
        · subst hdd
          simp
        · simp [hdd]
  · intro s bucket_name d
    rfl
  · intro s bucket_name d objs pfl h
    rcases hbv : dlookup s.buckets bucket_name with _ | bobj
    · rw [get_file_list.eq_def, hbv] at h
      simp at h
    · rw [get_file_list.eq_def, hbv] at h
      simp at h
      exact h.1.symm

/-- Concrete instantiation of the amended C4 theorem. -/
theorem get_file_list_delimiter_amended_witness :
    ([[("n", PyVal.vstr "1")]] : List Resource) =
      claimVisibleObjs [("a/b", [("m", PyVal.vstr "2")]),
        ("a1", [("n", PyVal.vstr "1")])] "a" (some "/") ∧
    get_file_list
        ⟨[("b", [])], [("b", [("a/b", [("m", PyVal.vstr "2")])])], [], [],
          [], Option.none⟩ "b" Option.none (some "/") =
      get_file_list
        ⟨[("b", [])], [("b", [("a/b", [("m", PyVal.vstr "2")])])], [], [],
          [], Option.none⟩ "b" (some "") (some "/") := by
  constructor
  · exact get_file_list_delimiter_amended.1
      ⟨[("b", [])],
        [("b", [("a/b", [("m", PyVal.vstr "2")]),
          ("a1", [("n", PyVal.vstr "1")])])], [], [], [], Option.none⟩
      "b" "a" (some "/") [[("n", PyVal.vstr "1")]] ["a/"]
      (by decide) (by decide)
  · exact get_file_list_delimiter_amended.2.1
      ⟨[("b", [])], [("b", [("a/b", [("m", PyVal.vstr "2")])])], [], [],
        [], Option.none⟩ "b" (some "/")

/-- Claim C5 counterexample: two objects under the same sub-folder produce
two identical `commonPrefixes` entries — the collection is not
deduplicated. -/
theorem common_prefixes_dup_cx :
    get_file_list
        ⟨[("b", [])],
          [("b", [("a/b/1", [("n", PyVal.vstr "1")]),
            ("a/b/2", [("n", PyVal.vstr "2")])])], [], [], [],
          Option.none⟩ "b" (some "a/") (some "/") =
      Except.ok ([], ["a/b/", "a/b/"]) ∧
    ¬ (["a/b/", "a/b/"] : List String).Nodup := by
  refine ⟨by decide, by decide⟩

/-- Claim C5 as amended: with a (truthy) delimiter, `commonPrefixes` contains
one entry per matching object key — the substring up to and including the
first delimiter occurrence after the prefix — with no deduplication, so a
common prefix shared by several objects appears once per object; on objects
`a/1.txt`, `a/b/2.txt`, `a/c/3.txt`, `z.txt` with prefix `a/` and delimiter
`/` the result is objects `a/1.txt` and common prefixes `a/b/`, `a/c/`. -/
theorem common_prefixes_amended :
    (∀ (s : Storage) (bucket_name : String) (pfx : Option String)
        (dd : String) (objs : List Resource) (pfl : List String),
      dd ≠ "" →
      get_file_list s bucket_name pfx (some dd) = Except.ok (objs, pfl) →
      pfl = claimCommonEntries
        (((dlookup s.objects bucket_name).getD []).map (fun kv => kv.1))
        (pfx.getD "") dd) ∧
    get_file_list
        ⟨[("b", [])],
          [("b", [("a/1.txt", [("n", PyVal.vstr "1")]),
            ("a/b/2.txt", [("n", PyVal.vstr "2")]),
            ("a/c/3.txt", [("n", PyVal.vstr "3")]),
            ("z.txt", [("n", PyVal.vstr "4")])])], [], [], [],
          Option.none⟩ "b" (some "a/") (some "/") =
      Except.ok ([[("n", PyVal.vstr "1")]], ["a/b/", "a/c/"]) := by
  constructor
  · intro s bucket_name pfx dd objs pfl hdd h
    rcases hbv : dlookup s.buckets bucket_name with _ | bobj
    · rw [get_file_list.eq_def, hbv] at h
      simp at h
    · rw [get_file_list.eq_def, hbv] at h
      have hmain : ∀ (plen : Nat), plen = (pfx.getD "").length →
          (∀ nm : String, strStartsWith nm (pfx.getD "") = true →
            strTakeN nm plen = pfx.getD "") →
          List.filterMap
            ((fun nm =>
              if strStartsWith nm (pfx.getD "") = true ∧
                  strContainsSub (strDropN nm plen) dd = true then
                some (strTakeN nm plen ++
                  strBeforeFirst (strDropN nm plen) dd ++ dd)
              else Option.none) ∘ (fun kv => kv.1))
            ((dlookup s.objects bucket_name).getD []) =
          claimCommonEntries
            (((dlookup s.objects bucket_name).getD []).map (fun kv => kv.1))
            (pfx.getD "") dd := by
        intro plen hplen htake
        subst hplen
        unfold claimCommonEntries
        rw [← filterMap_ite, ← List.filterMap_map]
        apply filterMap_congr2
        intro nm _
        by_cases h1 : strStartsWith nm (pfx.getD "")
        · by_cases h2 :
              strContainsSub (strDropN nm ((pfx.getD "").length)) dd
          · simp [Function.comp, h1, h2, htake nm h1]
          · simp [Function.comp, h1, h2]
        · simp [Function.comp, h1]
      have hz : ∀ nm : String, strTakeN nm 0 = "" := by
        intro nm
        simp [strTakeN]
      cases pfx with
      | none =>
        simp [hdd] at h
        rw [← h.2]
        simpa using hmain 0 (by simp) (fun nm _ => hz nm)
      | some p =>
        by_cases hps : p = ""
        · subst hps
          simp [hdd] at h
          rw [← h.2]
          simpa using hmain 0 (by simp) (fun nm _ => hz nm)
        · simp [hdd, hps] at h
          rw [← h.2]
          simpa using hmain p.length (by simp) (fun nm h1 => by
            simpa using strTakeN_of_startsWith nm p (by simpa using h1))
  · decide

/-- Concrete instantiation of the general part of the amended C5 theorem. -/
theorem common_prefixes_amended_witness :
    (["a/b/", "a/c/"] : List String) =
      claimCommonEntries ["a/1.txt", "a/b/2.txt", "a/c/3.txt", "z.txt"]
        "a/" "/" := by
  have h := common_prefixes_amended.1
    ⟨[("b", [])],
      [("b", [("a/1.txt", [("n", PyVal.vstr "1")]),
        ("a/b/2.txt", [("n", PyVal.vstr "2")]),
        ("a/c/3.txt", [("n", PyVal.vstr "3")]),
        ("z.txt", [("n", PyVal.vstr "4")])])], [], [], [], Option.none⟩
    "b" (some "a/") "/" [[("n", PyVal.vstr "1")]] ["a/b/", "a/c/"]
    (by decide) (by decide)
  simpa using h


/-! ## C2/C3 machinery -/

theorem strAppend_cancel_left (a b c : String) : a ++ b = a ++ c ↔ b = c := by
  constructor
  · intro h
    have hd : a.data ++ b.data = a.data ++ c.data := by
      rw [← String.data_append, ← String.data_append, h]
    have := List.append_cancel_left hd
    cases b
    cases c
    simp_all
  · intro h
    rw [h]

theorem dlookup_dremove_none {κ α : Type} [DecidableEq κ]
    (d : List (κ × α)) (k k' : κ) (h : dlookup d k' = Option.none) :
    dlookup (dremove d k) k' = Option.none := by
  rw [dlookup_dremove]
  split <;> simp [h]

theorem collectParts_zero (s : Storage) (safe : String) (k : Nat) :
    collectParts s safe k 0 = (s, []) := rfl

theorem collectParts_succ (s : Storage) (safe : String) (k fuel' : Nat) :
    collectParts s safe k (fuel' + 1) =
      match fsRead s MULTIPART_DIR (safe ++ "." ++ pad5 k) with
      | Option.none => (s, [])
      | some part_content =>
        let s1 := fsDelete s MULTIPART_DIR (safe ++ "." ++ pad5 k)
        let r := collectParts s1 safe (k + 1) fuel'
        (r.1, part_content ++ r.2) := by
  rw [collectParts]

theorem collectParts_stop (j : Nat) : ∀ (s : Storage) (safe : String)
    (k fuel fuel' : Nat), j ≤ fuel → j ≤ fuel' →
    fsRead s MULTIPART_DIR (safe ++ "." ++ pad5 (k + j)) = Option.none →
    collectParts s safe k fuel = collectParts s safe k fuel' := by
  induction j with
  | zero =>
    intro s safe k fuel fuel' _ _ habs
    rw [Nat.add_zero] at habs
    cases fuel with
    | zero =>
      cases fuel' with
      | zero => rfl
      | succ f' => rw [collectParts_zero, collectParts_succ, habs]
    | succ f =>
      cases fuel' with
      | zero => rw [collectParts_zero, collectParts_succ, habs]
      | succ f' => rw [collectParts_succ, collectParts_succ, habs]
  | succ j ih =>
    intro s safe k fuel fuel' hf hf' habs
    obtain ⟨f, rfl⟩ : ∃ f, fuel = f + 1 := ⟨fuel - 1, by omega⟩
    obtain ⟨f', rfl⟩ : ∃ f', fuel' = f' + 1 := ⟨fuel' - 1, by omega⟩
    rw [collectParts_succ, collectParts_succ]
    cases hr : fsRead s MULTIPART_DIR (safe ++ "." ++ pad5 k) with
    | none => dsimp only
    | some part =>
      dsimp only
      have habs' : fsRead (fsDelete s MULTIPART_DIR (safe ++ "." ++ pad5 k))
          MULTIPART_DIR (safe ++ "." ++ pad5 ((k + 1) + j)) = Option.none := by
        have hkj : (k + 1) + j = k + (j + 1) := by omega
        rw [hkj]
        simp only [fsRead, fsDelete] at habs ⊢
        exact dlookup_dremove_none _ _ _ habs
      rw [ih _ safe (k + 1) f f' (by omega) (by omega) habs']


/-- Demo state for the multipart scenarios: one bucket `b` and a multipart
session for file `f` created at time `t0` (upload id `b:f:t0`). -/
def mpDemoStart : Storage :=
  (create_xml_multipart_upload
    ((create_bucket ⟨[], [], [], [], [], Option.none⟩ "b" []).1) "t0" "b" "f"
    PyVal.vnone PyVal.vnone).1

/-- The upload id of the demo session. -/
def mpDemoUid : String := "b:f:t0"

/-- The demo session resource. -/
def mpDemoSess : Resource :=
  [("kind", PyVal.vstr "storage#object"), ("bucket_name", PyVal.vstr "b"),
   ("id", PyVal.vstr "f"), ("metadata", PyVal.vnone),
   ("contentType", PyVal.vnone)]

/-- Parts `ab`, `cd`, `ef` uploaded in the order 3, 1, 2. -/
def mpDemo312 (safeId : String → String) : Storage :=
  (add_to_multipart_upload safeId
    (add_to_multipart_upload safeId
      (add_to_multipart_upload safeId mpDemoStart mpDemoUid 3 [101, 102]).1
      mpDemoUid 1 [97, 98]).1
    mpDemoUid 2 [99, 100]).1

theorem mpDemoStart_eq : mpDemoStart =
    ⟨[("b", [])], [], [], [(mpDemoUid, mpDemoSess)], [],
      some ⟨[("b", [])], [], [], [(mpDemoUid, mpDemoSess)]⟩⟩ := by decide

theorem mpDemo312_eq (safeId : String → String) :
    mpDemo312 safeId =
      ⟨[("b", [])], [], [], [(mpDemoUid, mpDemoSess)],
        [((MULTIPART_DIR, safeId mpDemoUid ++ "." ++ pad5 3), [101, 102]),
         ((MULTIPART_DIR, safeId mpDemoUid ++ "." ++ pad5 1), [97, 98]),
         ((MULTIPART_DIR, safeId mpDemoUid ++ "." ++ pad5 2), [99, 100])],
        some ⟨[("b", [])], [], [], [(mpDemoUid, mpDemoSess)]⟩⟩ := by
  have p1 : pad5 1 = "00001" := by decide
  have p2 : pad5 2 = "00002" := by decide
  have p3 : pad5 3 = "00003" := by decide
  simp +decide [mpDemo312, mpDemoStart_eq, add_to_multipart_upload, fsWrite,
    dinsert, dlookup, mpDemoUid, p1, p2, p3, strAppend_cancel_left]



theorem mp312_complete (safeId : String → String)
    (crcF md5F : Bytes → String) (now : String) :
    (complete_multipart_upload safeId crcF md5F now (mpDemo312 safeId)
        mpDemoUid).2 = Except.ok () ∧
    get_file (complete_multipart_upload safeId crcF md5F now
        (mpDemo312 safeId) mpDemoUid).1 "b" "f" true =
      Except.ok [97, 98, 99, 100, 101, 102] := by
  have p1 : pad5 1 = "00001" := by decide
  have p2 : pad5 2 = "00002" := by decide
  have p3 : pad5 3 = "00003" := by decide
  have p4 : pad5 4 = "00004" := by decide
  have habs : fsRead (mpDemo312 safeId) MULTIPART_DIR
      (safeId mpDemoUid ++ "." ++ pad5 (1 + 3)) = Option.none := by
    simp +decide [mpDemo312_eq, fsRead, dlookup, p1, p2, p3, p4,
      strAppend_cancel_left]
  have hcut := collectParts_stop 3 (mpDemo312 safeId) (safeId mpDemoUid) 1
    10000 3 (by omega) (by omega) habs
  rw [mpDemo312_eq] at hcut
  have hrun : collectParts
      ⟨[("b", [])], [], [], [(mpDemoUid, mpDemoSess)],
        [((MULTIPART_DIR, safeId mpDemoUid ++ "." ++ pad5 3), [101, 102]),
         ((MULTIPART_DIR, safeId mpDemoUid ++ "." ++ pad5 1), [97, 98]),
         ((MULTIPART_DIR, safeId mpDemoUid ++ "." ++ pad5 2), [99, 100])],
        some ⟨[("b", [])], [], [], [(mpDemoUid, mpDemoSess)]⟩⟩
      (safeId mpDemoUid) 1 10000 =
      (⟨[("b", [])], [], [], [(mpDemoUid, mpDemoSess)], [],
        some ⟨[("b", [])], [], [], [(mpDemoUid, mpDemoSess)]⟩⟩,
       [97, 98, 99, 100, 101, 102]) := by
    rw [hcut]
    simp +decide [collectParts, fsRead, fsDelete, dlookup, dremove, p1, p2,
      p3, strAppend_cancel_left]
  simp only [mpDemoSess] at hrun
  constructor <;>
    simp +decide [complete_multipart_upload, mpDemo312_eq, hrun, checksums,
      get_file, fsRead, fsWrite, writeConfig, dlookup, dinsert, pyGet,
      pyTruthy, asStr, mpDemoSess, strAppend_cancel_left]


/-- Parts `ab` (1) and `ef` (3) uploaded, part 2 missing. -/
def mpDemoGap (safeId : String → String) : Storage :=
  (add_to_multipart_upload safeId
    (add_to_multipart_upload safeId mpDemoStart mpDemoUid 1 [97, 98]).1
    mpDemoUid 3 [101, 102]).1

theorem mpDemoGap_eq (safeId : String → String) :
    mpDemoGap safeId =
      ⟨[("b", [])], [], [], [(mpDemoUid, mpDemoSess)],
        [((MULTIPART_DIR, safeId mpDemoUid ++ "." ++ pad5 1), [97, 98]),
         ((MULTIPART_DIR, safeId mpDemoUid ++ "." ++ pad5 3), [101, 102])],
        some ⟨[("b", [])], [], [], [(mpDemoUid, mpDemoSess)]⟩⟩ := by
  have p1 : pad5 1 = "00001" := by decide
  have p3 : pad5 3 = "00003" := by decide
  simp +decide [mpDemoGap, mpDemoStart_eq, add_to_multipart_upload, fsWrite,
    dinsert, dlookup, mpDemoUid, p1, p3, strAppend_cancel_left]

theorem mpGap_complete (safeId : String → String)
    (crcF md5F : Bytes → String) (now : String) :
    (complete_multipart_upload safeId crcF md5F now (mpDemoGap safeId)
        mpDemoUid).2 = Except.ok () ∧
    get_file (complete_multipart_upload safeId crcF md5F now
        (mpDemoGap safeId) mpDemoUid).1 "b" "f" true =
      Except.ok [97, 98] := by
  have p1 : pad5 1 = "00001" := by decide
  have p2 : pad5 2 = "00002" := by decide
  have p3 : pad5 3 = "00003" := by decide
  have habs : fsRead (mpDemoGap safeId) MULTIPART_DIR
      (safeId mpDemoUid ++ "." ++ pad5 (1 + 1)) = Option.none := by
    simp +decide [mpDemoGap_eq, fsRead, dlookup, p1, p2, p3,
      strAppend_cancel_left]
  have hcut := collectParts_stop 1 (mpDemoGap safeId) (safeId mpDemoUid) 1
    10000 1 (by omega) (by omega) habs
  rw [mpDemoGap_eq] at hcut
  have hrun : collectParts
      ⟨[("b", [])], [], [], [(mpDemoUid, mpDemoSess)],
        [((MULTIPART_DIR, safeId mpDemoUid ++ "." ++ pad5 1), [97, 98]),
         ((MULTIPART_DIR, safeId mpDemoUid ++ "." ++ pad5 3), [101, 102])],
        some ⟨[("b", [])], [], [], [(mpDemoUid, mpDemoSess)]⟩⟩
      (safeId mpDemoUid) 1 10000 =
      (⟨[("b", [])], [], [], [(mpDemoUid, mpDemoSess)],
        [((MULTIPART_DIR, safeId mpDemoUid ++ "." ++ pad5 3), [101, 102])],
        some ⟨[("b", [])], [], [], [(mpDemoUid, mpDemoSess)]⟩⟩,
       [97, 98]) := by
    rw [hcut]
    simp +decide [collectParts, fsRead, fsDelete, dlookup, dremove, p1, p3,
      strAppend_cancel_left]
  simp only [mpDemoSess] at hrun
  constructor <;>
    simp +decide [complete_multipart_upload, mpDemoGap_eq, hrun, checksums,
      get_file, fsRead, fsWrite, writeConfig, dlookup, dinsert, pyGet,
      pyTruthy, asStr, mpDemoSess, strAppend_cancel_left]

theorem collectParts_multipart (s : Storage) (safe : String) (k fuel : Nat) :
    (collectParts s safe k fuel).1.multipart = s.multipart := by
  induction fuel generalizing s k with
  | zero => rfl
  | succ f ih =>
    rw [collectParts_succ]
    cases hr : fsRead s MULTIPART_DIR (safe ++ "." ++ pad5 k) with
    | none => rfl
    | some part =>
      dsimp only
      rw [ih]
      rfl

theorem complete_preserves_multipart (safeId : String → String)
    (crcF md5F : Bytes → String) (now : String) (s : Storage)
    (upload_id : String) :
    ((complete_multipart_upload safeId crcF md5F now s upload_id).1).multipart
      = s.multipart := by
  rw [complete_multipart_upload.eq_def]
  cases hl : dlookup s.multipart upload_id with
  | none => rfl
  | some upload =>
    dsimp only
    cases hcp : collectParts s (safeId upload_id) 1 10000 with
    | mk s1 content =>
      have h1 : s1.multipart = s.multipart := by
        have := collectParts_multipart s (safeId upload_id) 1 10000
        rw [hcp] at this
        exact this
      dsimp only
      cases checksums crcF md5F content
          (dinsert (dinsert upload "size" (PyVal.vint content.length))
            "updated" (PyVal.vstr now)) with
      | error e => simpa [fsWrite] using h1
      | ok fo => simpa [writeConfig, fsWrite] using h1

theorem checksums_error_conflict (crcF md5F : Bytes → String)
    (content : Bytes) (fo : Resource) (e : Err)
    (h : checksums crcF md5F content fo = Except.error e) :
    e = Err.conflict := by
  by_cases h1 : pyTruthy (pyGet fo "crc32c") <;>
    by_cases e1 : pyGet fo "crc32c" = PyVal.vstr (crcF content) <;>
    by_cases h2 : pyTruthy (pyGet fo "md5Hash") <;>
    by_cases e2 : pyGet fo "md5Hash" = PyVal.vstr (md5F content) <;>
    simp_all [checksums]


/-- Claim C2: `complete_multipart_upload` assembles the final object by
reading parts for part numbers 1..10000 in ascending order, stopping at the
first missing part number (the reading loop run with fuel 10000 equals the
loop stopped just before the first missing number); in particular parts
`ab`, `cd`, `ef` uploaded in the order 3, 1, 2 then completed yield final
content `abcdef`, and a session holding parts 1 and 3 but missing part 2
yields final content equal to just part 1's bytes. -/
theorem multipart_assembly :
    (∀ (s : Storage) (safe : String) (m : Nat), 1 ≤ m → m ≤ 10000 →
      fsRead s MULTIPART_DIR (safe ++ "." ++ pad5 m) = Option.none →
      collectParts s safe 1 10000 = collectParts s safe 1 (m - 1)) ∧
    (∀ (safeId : String → String) (crcF md5F : Bytes → String)
        (now : String),
      (complete_multipart_upload safeId crcF md5F now (mpDemo312 safeId)
          mpDemoUid).2 = Except.ok () ∧
      get_file (complete_multipart_upload safeId crcF md5F now
          (mpDemo312 safeId) mpDemoUid).1 "b" "f" true =
        Except.ok [97, 98, 99, 100, 101, 102]) ∧
    (∀ (safeId : String → String) (crcF md5F : Bytes → String)
        (now : String),
      (complete_multipart_upload safeId crcF md5F now (mpDemoGap safeId)
          mpDemoUid).2 = Except.ok () ∧
      get_file (complete_multipart_upload safeId crcF md5F now
          (mpDemoGap safeId) mpDemoUid).1 "b" "f" true =
        Except.ok [97, 98]) := by
  refine ⟨?_, mp312_complete, mpGap_complete⟩
  intro s safe m h1 h2 habs
  have habs' : fsRead s MULTIPART_DIR (safe ++ "." ++ pad5 (1 + (m - 1))) =
      Option.none := by
    rw [show 1 + (m - 1) = m from by omega]
    exact habs
  exact collectParts_stop (m - 1) s safe 1 10000 (m - 1) (by omega)
    (by omega) habs'

/-- Concrete instantiation of the C2 theorem. -/
theorem multipart_assembly_witness :
    collectParts ⟨[], [], [], [], [], Option.none⟩ "x" 1 10000 =
      collectParts ⟨[], [], [], [], [], Option.none⟩ "x" 1 0 ∧
    get_file (complete_multipart_upload (fun u => u) (fun _ => "C")
        (fun _ => "M") "t1" (mpDemo312 (fun u => u)) mpDemoUid).1 "b" "f"
      true = Except.ok [97, 98, 99, 100, 101, 102] := by
  constructor
  · exact multipart_assembly.1 ⟨[], [], [], [], [], Option.none⟩ "x" 1
      (by decide) (by decide) (by decide)
  · exact (multipart_assembly.2.1 (fun u => u) (fun _ => "C") (fun _ => "M")
      "t1").2

/-- Claim C3 counterexample: after a successful completion of the demo
session, the session record is still in the catalog, a subsequent
`add_to_multipart_upload` succeeds, and a subsequent
`complete_multipart_upload` succeeds as well — none of them fails with
NotFound as the claim requires. -/
theorem multipart_session_not_removed_cx :
    (complete_multipart_upload (fun u => u) (fun _ => "C") (fun _ => "M")
        "t1" (mpDemo312 (fun u => u)) mpDemoUid).2 = Except.ok () ∧
    dlookup (complete_multipart_upload (fun u => u) (fun _ => "C")
        (fun _ => "M") "t1" (mpDemo312 (fun u => u)) mpDemoUid).1.multipart
      mpDemoUid = some mpDemoSess ∧
    (add_to_multipart_upload (fun u => u)
        (complete_multipart_upload (fun u => u) (fun _ => "C")
          (fun _ => "M") "t1" (mpDemo312 (fun u => u)) mpDemoUid).1
        mpDemoUid 1 [0]).2 = Except.ok () ∧
    (complete_multipart_upload (fun u => u) (fun _ => "C") (fun _ => "M")
        "t2" (complete_multipart_upload (fun u => u) (fun _ => "C")
          (fun _ => "M") "t1" (mpDemo312 (fun u => u)) mpDemoUid).1
        mpDemoUid).2 = Except.ok () := by
  refine ⟨by decide, by decide, by decide, by decide⟩

/-- Claim C3 as amended: after a successful `complete_multipart_upload`,
every transient part that was read has been deleted (shown on the demo
session), but the multipart session record is never removed from the
catalog, so a subsequent `add_to_multipart_upload` succeeds and a subsequent
`complete_multipart_upload` does not fail with NotFound. -/
theorem multipart_complete_cleanup_amended :
    (∀ (safeId : String → String) (crcF md5F : Bytes → String)
        (now : String) (s : Storage) (upload_id : String),
      ((complete_multipart_upload safeId crcF md5F now s
        upload_id).1).multipart = s.multipart) ∧
    (∀ (safeId : String → String) (crcF md5F : Bytes → String)
        (now : String) (s : Storage) (upload_id : String)
        (upload : Resource) (n : Nat) (c : Bytes),
      dlookup s.multipart upload_id = some upload →
      (add_to_multipart_upload safeId
        (complete_multipart_upload safeId crcF md5F now s upload_id).1
        upload_id n c).2 = Except.ok ()) ∧
    (∀ (safeId : String → String) (crcF md5F : Bytes → String)
        (now now2 : String) (s : Storage) (upload_id : String)
        (upload : Resource),
      dlookup s.multipart upload_id = some upload →
      (complete_multipart_upload safeId crcF md5F now2
        (complete_multipart_upload safeId crcF md5F now s upload_id).1
        upload_id).2 ≠ Except.error Err.notFound) ∧
    (∀ i, i ∈ [1, 2, 3] →
      fsRead (complete_multipart_upload (fun u => u) (fun _ => "C")
          (fun _ => "M") "t1" (mpDemo312 (fun u => u)) mpDemoUid).1
        MULTIPART_DIR (mpDemoUid ++ "." ++ pad5 i) = Option.none) := by
  refine ⟨complete_preserves_multipart, ?_, ?_, by decide⟩
  · intro safeId crcF md5F now s upload_id upload n c h
    have hp := complete_preserves_multipart safeId crcF md5F now s upload_id
    simp [add_to_multipart_upload, hp, h]
  · intro safeId crcF md5F now now2 s upload_id upload h
    have hp := complete_preserves_multipart safeId crcF md5F now s upload_id
    rw [complete_multipart_upload.eq_def, hp, h]
    dsimp only
    cases hcp : collectParts
        (complete_multipart_upload safeId crcF md5F now s upload_id).1
        (safeId upload_id) 1 10000 with
    | mk s1 content =>
      dsimp only
      cases hchk : checksums crcF md5F content
          (dinsert (dinsert upload "size" (PyVal.vint content.length))
            "updated" (PyVal.vstr now2)) with
      | error e =>
        have := checksums_error_conflict crcF md5F content _ e hchk
        subst this
        simp
      | ok fo => simp

/-- Concrete instantiation of the amended C3 theorem. -/
theorem multipart_complete_cleanup_amended_witness :
    (complete_multipart_upload (fun u => u) (fun _ => "C") (fun _ => "M")
        "t1" (mpDemo312 (fun u => u)) mpDemoUid).1.multipart =
      (mpDemo312 (fun u => u)).multipart ∧
    (add_to_multipart_upload (fun u => u)
        (complete_multipart_upload (fun u => u) (fun _ => "C")
          (fun _ => "M") "t1" (mpDemo312 (fun u => u)) mpDemoUid).1
        mpDemoUid 2 [9]).2 = Except.ok () ∧
    fsRead (complete_multipart_upload (fun u => u) (fun _ => "C")
        (fun _ => "M") "t1" (mpDemo312 (fun u => u)) mpDemoUid).1
      MULTIPART_DIR (mpDemoUid ++ "." ++ pad5 1) = Option.none := by
  refine ⟨multipart_complete_cleanup_amended.1 (fun u => u) (fun _ => "C")
      (fun _ => "M") "t1" (mpDemo312 (fun u => u)) mpDemoUid, ?_, ?_⟩
  · exact multipart_complete_cleanup_amended.2.1 (fun u => u) (fun _ => "C")
      (fun _ => "M") "t1" (mpDemo312 (fun u => u)) mpDemoUid mpDemoSess 2 [9]
      (by decide)
  · exact multipart_complete_cleanup_amended.2.2.2 1 (by decide)

end GcsEmu
